import Mathlib

/-!
Verification of the orchestration logic of `git-repo-importer.py`.

The Python program is a single class `GitHubImporter` that sequences five
external interactions (dependency check, token validation, destination probe,
repository creation, mirror clone + push) followed by an unconditional cleanup
in a `finally` block.  We embed the pure logic directly and model the external
world (HTTP responses, user input, git success/failure, interrupts) as an
explicit environment; external calls are recorded in an event trace and the
filesystem is a list of existing paths.
-/

set_option maxRecDepth 4000

/-! ## URL path extraction (model of `urllib.parse.urlparse(url).path`)

The source calls the standard library's `urlparse` and only uses the `.path`
component.  We model the path extraction of CPython's `urlsplit`/`urlparse`:
strip a valid scheme, strip the netloc after `//`, cut at `#` and `?`, and
(for schemes that use parameters) split `;params` off the last path segment.
-/

def isSchemeChar (c : Char) : Bool :=
  c.isAlpha || c.isDigit || c == '+' || c == '-' || c == '.'

/-- After the scheme is removed: if the remainder starts with `//`, drop the
network location, i.e. everything up to the first `/`, `?` or `#`. -/
def splitNetloc (l : List Char) : List Char :=
  match l with
  | '/' :: '/' :: rest => rest.dropWhile (fun c => !(c == '/' || c == '?' || c == '#'))
  | _ => l

/-- CPython `_splitparams`: cut the path at the first `;` occurring in the
last path segment (or anywhere, if the path has no `/`). -/
def splitParams (l : List Char) : List Char :=
  if l.contains '/' then
    let r := l.reverse
    let segR := r.takeWhile (fun c => c != '/')
    if segR.contains ';' then
      (r.dropWhile (fun c => c != '/')).reverse ++ segR.reverse.takeWhile (fun c => c != ';')
    else l
  else if l.contains ';' then l.takeWhile (fun c => c != ';') else l

/-- Schemes for which `urlparse` splits `;params` off the path. -/
def usesParams : List String :=
  ["", "ftp", "hdl", "prospero", "http", "imap", "https", "shttp", "rtsp",
   "rtspu", "sip", "sips", "mms", "sftp", "tel"]

/-- The `.path` component of `urllib.parse.urlparse`. -/
def urlparsePath (url : String) : String :=
  let l := url.data
  let schemeRest : String × List Char :=
    match l.findIdx? (fun c => c == ':') with
    | some i =>
      if 0 < i ∧ (l.headD ' ').isAlpha ∧ (l.take i).all isSchemeChar then
        (String.mk ((l.take i).map Char.toLower), l.drop (i + 1))
      else ("", l)
    | none => ("", l)
  let rest := splitNetloc schemeRest.2
  let rest := rest.takeWhile (fun c => c != '#')
  let rest := rest.takeWhile (fun c => c != '?')
  let rest :=
    if usesParams.contains schemeRest.1 ∧ rest.contains ';' then splitParams rest else rest
  String.mk rest

/-! ## Repository-name extraction (`GitHubImporter._extract_repo_name`)

The Python code operates on the path string:
`path = parsed.path.rstrip('/')`, then drops a trailing `.git`, then takes
`path.split('/')[-1]` and raises `ValueError` if it is empty.  We implement
the same three steps on the reversed character list: `rstrip('/')` is
`dropWhile (== '/')` on the reverse, a trailing `.git` is the prefix
`['t','i','g','.']` of the reverse, and `split('/')[-1]` is the maximal
`'/'`-free suffix, i.e. `takeWhile (!= '/')` on the reverse. -/

def rstripSlashR (r : List Char) : List Char := r.dropWhile (fun c => c == '/')

def stripDotGitR (r : List Char) : List Char :=
  if r.take 4 = ['t', 'i', 'g', '.'] then r.drop 4 else r

def lastSegR (r : List Char) : List Char := r.takeWhile (fun c => c != '/')

structure GitHubImporter where
  token : String
  target_user : String
  source_url : String
  custom_branch : Option String
  repo_name : String
  deriving Repr, DecidableEq

def GitHubImporter.extract_repo_name (url : String) : Except String String :=
  let r0 := (urlparsePath url).data.reverse
  let r1 := rstripSlashR r0
  let r2 := stripDotGitR r1
  let nameR := lastSegR r2
  if nameR = [] then Except.error "Could not extract repository name from URL"
  else Except.ok (String.mk nameR.reverse)

/-- `GitHubImporter.__init__`: the repository name is the override when it is
truthy (a non-empty string), otherwise it is derived from the source URL;
a failing derivation raises `ValueError`, modelled as `Except.error`. -/
def GitHubImporter.init (token target_user source_url : String)
    (custom_branch : Option String) (repo_name : Option String) :
    Except String GitHubImporter :=
  match repo_name with
  | some n =>
    if n = "" then
      (GitHubImporter.extract_repo_name source_url).map
        (fun rn => ⟨token, target_user, source_url, custom_branch, rn⟩)
    else Except.ok ⟨token, target_user, source_url, custom_branch, n⟩
  | none =>
    (GitHubImporter.extract_repo_name source_url).map
      (fun rn => ⟨token, target_user, source_url, custom_branch, rn⟩)

/-! ## Spec-side notions used by the claims about name derivation -/

/-- The final segment of a path: the part after the last `/` (the whole path
if it has no `/`), i.e. `path.split('/')[-1]`. -/
def finalSegment (p : String) : String :=
  String.mk ((p.data.reverse.takeWhile (fun c => c != '/')).reverse)

/-- A string with a trailing `.git` suffix removed (unchanged otherwise). -/
def stripGitSuffix (s : String) : String :=
  String.mk ((stripDotGitR s.data.reverse).reverse)

/-- The last non-empty segment of a path: its final segment after discarding
any trailing slashes. -/
def lastNonemptySegment (p : String) : String :=
  String.mk (((p.data.reverse.dropWhile (fun c => c == '/')).takeWhile (fun c => c != '/')).reverse)

/-! ## The orchestration (`GitHubImporter.import_repo`)

External interactions are recorded as events.  The environment `Env` fixes
what the external world answers: HTTP status codes, JSON decodability, the user's
reply to the overwrite prompt, git success, and an optional interrupt signal
(`KeyboardInterrupt`) arriving during one of the orchestration steps.
The filesystem is modelled as the list of existing paths; only the staging
directory is ever touched by the program. -/

/-- Body of the repository-creation POST request
(`{"name": ..., "private": false, "description": "Imported from <url>"}`). -/
structure CreateBody where
  name : String
  isPrivate : Bool
  description : String
  deriving Repr, DecidableEq

inductive Event where
  | which (dep : String)
  | httpGet (url : String)
  | prompt
  | httpPost (url : String) (body : CreateBody)
  | printRaw (s : String)
  | rmrf (path : String)
  | gitClone (src : String) (dst : String)
  | gitPush (url : String)
  | httpPatch (url : String) (defaultBranch : String)
  deriving Repr, DecidableEq

def Event.isCreateCall : Event → Bool
  | .httpPost _ _ => true
  | _ => false

def Event.isCloneCall : Event → Bool
  | .gitClone _ _ => true
  | _ => false

def Event.isPushCall : Event → Bool
  | .gitPush _ => true
  | _ => false

def Event.isPatchCall : Event → Bool
  | .httpPatch _ _ => true
  | _ => false

/-- The orchestration steps during which an interrupt signal can arrive. -/
inductive Step where
  | deps
  | token
  | probe
  | create
  | clone
  | push
  | patch
  deriving Repr, DecidableEq

/-- The external world: responses of the hosting API, the user's answer to
the overwrite prompt, git outcomes, and an optional interrupt. -/
structure Env where
  gitInstalled : Bool
  curlInstalled : Bool
  /-- HTTP status (as the string curl prints) of the token-validation request. -/
  tokenStatus : String
  /-- HTTP status of the destination-probe request. -/
  probeStatus : String
  /-- Raw reply typed at the overwrite prompt. -/
  overwriteAnswer : String
  /-- User-type lookup body: `none` means `json.loads` raises
  `JSONDecodeError`; `some t` means it decodes with `.get('type') = t`. -/
  userInfoJson : Option (Option String)
  /-- Creation response body: `none` means `json.loads` raises; `some b`
  means it decodes and `b` says whether the `'id'` field is present. -/
  createJson : Option Bool
  /-- Raw text of the creation response (printed on failure). -/
  createRaw : String
  cloneOk : Bool
  /-- Whether a failed or interrupted `git clone --mirror` leaves a partial
  staging directory behind. -/
  cloneLeavesDirOnFail : Bool
  pushOk : Bool
  interruptAt : Option Step
  deriving Repr, DecidableEq

/-- Mutable run state: `self.temp_dir`, the filesystem, the event trace. -/
structure St where
  fs : List String
  events : List Event
  tempDir : Option String
  deriving Repr, DecidableEq

def St.addEvents (st : St) (evs : List Event) : St :=
  { st with events := st.events ++ evs }

/-- How `import_repo` finishes: normal return (process later exits 0),
`sys.exit(code)`, a `KeyboardInterrupt` reaching its handler, or another
exception reaching the catch-all handler (both exit 1). -/
inductive ExitKind where
  | finished
  | exited (code : Nat)
  | interrupted
  | excepted
  deriving Repr, DecidableEq

/-- Outcome of one orchestration step. -/
inductive StepOut (α : Type) where
  | ok (a : α) (st : St)
  | exit (code : Nat) (st : St)
  | interrupted (st : St)
  | excepted (st : St)
  deriving Repr

def StepOut.st {α : Type} : StepOut α → St
  | .ok _ s => s
  | .exit _ s => s
  | .interrupted s => s
  | .excepted s => s

structure RunResult where
  exitCode : Nat
  events : List Event
  fs : List String
  deriving Repr, DecidableEq

def userApiUrl : String := "https://api.github.com/user"

def repoApiUrl (imp : GitHubImporter) : String :=
  "https://api.github.com/repos/" ++ imp.target_user ++ "/" ++ imp.repo_name

def usersUrl (imp : GitHubImporter) : String :=
  "https://api.github.com/users/" ++ imp.target_user

def orgReposUrl (imp : GitHubImporter) : String :=
  "https://api.github.com/orgs/" ++ imp.target_user ++ "/repos"

def userReposUrl : String := "https://api.github.com/user/repos"

def githubPushUrl (imp : GitHubImporter) : String :=
  "https://" ++ imp.token ++ "@github.com/" ++ imp.target_user ++ "/" ++ imp.repo_name ++ ".git"

/-- `self.temp_dir = f"/tmp/git-import-{self.repo_name}-{os.getpid()}"`. -/
def stagingPath (imp : GitHubImporter) (pid : Nat) : String :=
  "/tmp/git-import-" ++ imp.repo_name ++ "-" ++ toString pid

def createBody (imp : GitHubImporter) : CreateBody :=
  ⟨imp.repo_name, false, "Imported from " ++ imp.source_url⟩

/-- Characters removed by Python `str.strip()` (ASCII whitespace). -/
def isPySpace (c : Char) : Bool :=
  c == ' ' || c == '\t' || c == '\n' || c == '\r' || c == '\x0b' || c == '\x0c'

/-- Python `response.strip().lower()` applied to the prompt reply. -/
def pyAnswer (s : String) : String :=
  String.mk ((((s.data.dropWhile isPySpace).reverse.dropWhile isPySpace).reverse).map Char.toLower)

/-- Python truthiness of `self.custom_branch` at the push step: the branch
counts only when it is a non-empty string. -/
def effBranch (imp : GitHubImporter) : Option String :=
  match imp.custom_branch with
  | some b => if b = "" then none else some b
  | none => none

/-- `GitHubImporter._check_dependencies`: run `which` for git and curl; if
any is missing, `sys.exit(1)`. -/
def check_dependencies (env : Env) (st : St) : StepOut Unit :=
  if env.interruptAt = some Step.deps then
    StepOut.interrupted (st.addEvents [Event.which "git"])
  else
    let st := st.addEvents [Event.which "git", Event.which "curl"]
    if env.gitInstalled && env.curlInstalled then StepOut.ok () st
    else StepOut.exit 1 st

/-- `GitHubImporter._validate_token`: GET `/user`; any status other than
`"200"` is fatal (`sys.exit(1)`). -/
def validate_token (env : Env) (st : St) : StepOut Unit :=
  if env.interruptAt = some Step.token then
    StepOut.interrupted (st.addEvents [Event.httpGet userApiUrl])
  else
    let st := st.addEvents [Event.httpGet userApiUrl]
    if env.tokenStatus = "200" then StepOut.ok () st
    else StepOut.exit 1 st

/-- `GitHubImporter._check_repo_exists`: GET `/repos/<user>/<name>`; on
status `"200"` prompt for overwrite, `sys.exit(0)` unless the stripped,
lowercased reply is exactly `"yes"`. -/
def check_repo_exists (env : Env) (imp : GitHubImporter) (st : St) : StepOut Bool :=
  if env.interruptAt = some Step.probe then
    StepOut.interrupted (st.addEvents [Event.httpGet (repoApiUrl imp)])
  else
    let st := st.addEvents [Event.httpGet (repoApiUrl imp)]
    if env.probeStatus = "200" then
      let st := st.addEvents [Event.prompt]
      if pyAnswer env.overwriteAnswer = "yes" then StepOut.ok true st
      else StepOut.exit 0 st
    else StepOut.ok false st

/-- The endpoint chosen by `_create_github_repo`: the organization endpoint
when the user-type lookup decodes to `type = "Organization"`, the personal
endpoint otherwise — in particular when the lookup body does not decode
(`is_org = False` on `JSONDecodeError`). -/
def createEndpoint (env : Env) (imp : GitHubImporter) : String :=
  let is_org : Bool :=
    match env.userInfoJson with
    | some t => t == some "Organization"
    | none => false
  if is_org then orgReposUrl imp else userReposUrl

/-- `GitHubImporter._create_github_repo`: look up the target user's type
(defaulting to "not an organization" when the body does not decode), POST
the creation request to the org or personal endpoint, and report success
exactly when the response decodes and contains an `'id'` field; on failure
the raw response is printed. -/
def create_github_repo (env : Env) (imp : GitHubImporter) (st : St) : StepOut Bool :=
  if env.interruptAt = some Step.create then
    StepOut.interrupted (st.addEvents [Event.httpGet (usersUrl imp)])
  else
    let st := st.addEvents [Event.httpGet (usersUrl imp)]
    let st := st.addEvents [Event.httpPost (createEndpoint env imp) (createBody imp)]
    match env.createJson with
    | some true => StepOut.ok true st
    | some false => StepOut.ok false (st.addEvents [Event.printRaw env.createRaw])
    | none => StepOut.ok false (st.addEvents [Event.printRaw env.createRaw])

/-- `GitHubImporter._clone_source_repo`: set `self.temp_dir`, remove a
pre-existing staging directory, run `git clone --mirror`; failure is
`sys.exit(1)`. -/
def clone_source_repo (env : Env) (imp : GitHubImporter) (pid : Nat) (st : St) :
    StepOut Unit :=
  let dir := stagingPath imp pid
  let st : St := { st with tempDir := some dir }
  let st : St :=
    if dir ∈ st.fs then
      { st with fs := st.fs.filter (fun s => s != dir), events := st.events ++ [Event.rmrf dir] }
    else st
  if env.interruptAt = some Step.clone then
    let st := st.addEvents [Event.gitClone imp.source_url dir]
    let st : St := if env.cloneLeavesDirOnFail then { st with fs := dir :: st.fs } else st
    StepOut.interrupted st
  else
    let st := st.addEvents [Event.gitClone imp.source_url dir]
    if env.cloneOk then StepOut.ok () { st with fs := dir :: st.fs }
    else
      let st : St := if env.cloneLeavesDirOnFail then { st with fs := dir :: st.fs } else st
      StepOut.exit 1 st

/-- `GitHubImporter._push_to_github`: `git push --mirror`; a failed push
raises `CalledProcessError` (caught by the catch-all handler); if a truthy
custom branch was given, a PATCH request then sets the default branch. -/
def push_to_github (env : Env) (imp : GitHubImporter) (st : St) : StepOut Unit :=
  if env.interruptAt = some Step.push then
    StepOut.interrupted (st.addEvents [Event.gitPush (githubPushUrl imp)])
  else
    let st := st.addEvents [Event.gitPush (githubPushUrl imp)]
    if env.pushOk then
      match effBranch imp with
      | some b =>
        if env.interruptAt = some Step.patch then
          StepOut.interrupted (st.addEvents [Event.httpPatch (repoApiUrl imp) b])
        else StepOut.ok () (st.addEvents [Event.httpPatch (repoApiUrl imp) b])
      | none => StepOut.ok () st
    else StepOut.excepted st

/-- `GitHubImporter._cleanup`: `if self.temp_dir and os.path.exists(...)`,
remove the staging directory.  Run in the `finally` block on every path. -/
def cleanup (st : St) : St :=
  match st.tempDir with
  | some d =>
    if d ∈ st.fs then
      { st with fs := st.fs.filter (fun s => s != d), events := st.events ++ [Event.rmrf d] }
    else st
  | none => st

/-- Resolution of `import_repo`'s `try/except/finally`: the handlers turn
`KeyboardInterrupt` and other exceptions into `sys.exit(1)`, the `finally`
block runs `_cleanup`, and the process exits with the resulting code
(0 for a normal return from `main`). -/
def finishRun (k : ExitKind) (st : St) : RunResult :=
  let st := cleanup st
  match k with
  | .finished => ⟨0, st.events, st.fs⟩
  | .exited c => ⟨c, st.events, st.fs⟩
  | .interrupted => ⟨1, st.events, st.fs⟩
  | .excepted => ⟨1, st.events, st.fs⟩

/-- Sequencing of steps: a step that exits, is interrupted, or raises skips
the rest of the body and goes straight to the `finally` cleanup and exit. -/
def StepOut.andThen {α : Type} (r : StepOut α) (k : α → St → RunResult) : RunResult :=
  match r with
  | .ok a st => k a st
  | .exit c st => finishRun (.exited c) st
  | .interrupted st => finishRun .interrupted st
  | .excepted st => finishRun .excepted st

def clone_and_push (env : Env) (imp : GitHubImporter) (pid : Nat) (st : St) : RunResult :=
  (clone_source_repo env imp pid st).andThen fun _ st1 =>
  (push_to_github env imp st1).andThen fun _ st2 =>
  finishRun ExitKind.finished st2

/-- `GitHubImporter.import_repo`: the five-step sequence with cleanup on
every exit path. -/
def GitHubImporter.import_repo (env : Env) (imp : GitHubImporter) (pid : Nat)
    (fs0 : List String) : RunResult :=
  (check_dependencies env ⟨fs0, [], none⟩).andThen fun _ st1 =>
  (validate_token env st1).andThen fun _ st2 =>
  (check_repo_exists env imp st2).andThen fun repoExists st3 =>
  if repoExists then clone_and_push env imp pid st3
  else
    (create_github_repo env imp st3).andThen fun created st4 =>
    if created then clone_and_push env imp pid st4
    else finishRun (ExitKind.exited 1) st4

/-- `main`: construct the importer and run it.  A `ValueError` raised by
`__init__` is uncaught, so the interpreter exits with code 1 before any
external call is made. -/
def runImport (env : Env) (token user url : String) (branch name : Option String)
    (pid : Nat) (fs0 : List String) : RunResult :=
  match GitHubImporter.init token user url branch name with
  | Except.error _ => ⟨1, [], fs0⟩
  | Except.ok imp => GitHubImporter.import_repo env imp pid fs0

/-- A step outside the clone phase relates its input and output state like
this: `temp_dir` and the filesystem are untouched and only non-clone events
are appended. -/
def NonCloneStep (st st' : St) : Prop :=
  st'.tempDir = st.tempDir ∧ st'.fs = st.fs ∧
    ∃ evs, st'.events = st.events ++ evs ∧ evs.all (fun e => !e.isCloneCall) = true

/-- The staging-directory guarantee for a finished run: the staging path is
absent from the final filesystem, and a run whose trace shows no clone call
left the filesystem untouched. -/
def GoodRun (imp : GitHubImporter) (pid : Nat) (fs0 : List String) (res : RunResult) : Prop :=
  stagingPath imp pid ∉ res.fs ∧
    (res.events.all (fun e => !e.isCloneCall) = true → res.fs = fs0)

/-- A sample import job used by concrete witnesses. -/
def impEx : GitHubImporter :=
  ⟨"tok", "user", "https://example.com/group/proj.git", none, "proj"⟩

/-- The sample job with a custom default branch. -/
def impExBranch : GitHubImporter :=
  ⟨"tok", "user", "https://example.com/group/proj.git", some "main", "proj"⟩

/-- A fully successful environment: everything installed, token valid, the
destination absent, creation succeeding, clone and push succeeding. -/
def envEx : Env :=
  ⟨true, true, "200", "404", "", some (some "User"), some true, "", true, false, true, none⟩

/-- The successful environment, but with the destination already existing
and the user declining the overwrite prompt. -/
def envDecline : Env := { envEx with probeStatus := "200", overwriteAnswer := " NO " }

/-- The successful environment, but with an invalid token (HTTP 401). -/
def envBadToken : Env := { envEx with tokenStatus := "401" }

/-- The successful environment, but with a user-type lookup body that does
not decode as JSON. -/
def envNoDecodeUser : Env := { envEx with userInfoJson := none }

/-- The successful environment, but with a creation response that does not
decode as JSON. -/
def envNoDecodeCreate : Env := { envEx with createJson := none, createRaw := "bad body" }

/-- The successful environment, but interrupted mid-clone, with the
interrupted clone leaving a partial staging directory behind. -/
def envMidClone : Env :=
  { envEx with interruptAt := some Step.clone, cloneLeavesDirOnFail := true }

/-! ## Helper lemmas about the name-derivation pipeline -/

theorem stripDotGitR_nil : stripDotGitR [] = [] := rfl

/-- Taking the `'/'`-free suffix commutes with dropping a trailing `.git`,
because none of the characters of `.git` is a `/`. -/
theorem lastSegR_stripDotGitR (r : List Char) :
    lastSegR (stripDotGitR r) = stripDotGitR (lastSegR r) := by
  by_cases h : r.take 4 = ['t', 'i', 'g', '.']
  · obtain ⟨xs, hr⟩ : ∃ xs, r = 't' :: 'i' :: 'g' :: '.' :: xs :=
      ⟨r.drop 4, by (conv_lhs => rw [← List.take_append_drop 4 r, h]); rfl⟩
    subst hr
    rfl
  · rw [stripDotGitR, if_neg h, stripDotGitR, if_neg]
    intro hcontra
    apply h
    have hlen : 4 ≤ (lastSegR r).length := by
      have := congrArg List.length hcontra
      simp only [List.length_take, List.length_cons, List.length_nil] at this
      omega
    have hsplit : r = lastSegR r ++ r.dropWhile (fun c => c != '/') :=
      (List.takeWhile_append_dropWhile (fun c => c != '/') r).symm
    calc r.take 4 = (lastSegR r ++ r.dropWhile (fun c => c != '/')).take 4 := by
          rw [← hsplit]
      _ = (lastSegR r).take 4 ++ (r.dropWhile (fun c => c != '/')).take (4 - (lastSegR r).length) := by
          rw [List.take_append_eq_append_take]
      _ = ['t', 'i', 'g', '.'] := by
          rw [hcontra, Nat.sub_eq_zero_of_le hlen, List.take_zero, List.append_nil]

/-- A path whose final segment is non-empty does not end in `/`, so
`rstrip('/')` leaves it unchanged. -/
theorem rstripSlashR_of_lastSegR_ne (r : List Char) (h : lastSegR r ≠ []) :
    rstripSlashR r = r := by
  cases r with
  | nil => rfl
  | cons c t =>
    by_cases hc : c = '/'
    · exact absurd (by rw [hc]; rfl) h
    · rw [rstripSlashR, List.dropWhile_cons, if_neg (by simp [hc])]

theorem data_mk (l : List Char) : (String.mk l).data = l := rfl

/-! ## Claims C2, C10, C3: repository-name derivation -/

/-- C2 fails as stated: the URL `https://example.com/x/.git` has the
non-empty final path segment `.git`, yet name derivation raises
`ValueError` instead of returning that segment with `.git` removed. -/
theorem C2_counterexample :
    finalSegment (urlparsePath "https://example.com/x/.git") ≠ "" ∧
    GitHubImporter.extract_repo_name "https://example.com/x/.git" ≠
      Except.ok (stripGitSuffix (finalSegment (urlparsePath "https://example.com/x/.git"))) := by
  constructor
  · decide
  · intro hcontra
    rw [show GitHubImporter.extract_repo_name "https://example.com/x/.git" =
        Except.error "Could not extract repository name from URL" from rfl] at hcontra
    exact Except.noConfusion hcontra

/-- C2 (amended): for every source URL whose final path segment still has a
non-empty remainder after removing a trailing `.git`, the derived repository
name is that final segment with the `.git` suffix removed.  In particular
`https://example.com/group/proj.git` derives `proj`. -/
theorem C2_derived_repo_name (url : String)
    (h : stripGitSuffix (finalSegment (urlparsePath url)) ≠ "") :
    GitHubImporter.extract_repo_name url =
      Except.ok (stripGitSuffix (finalSegment (urlparsePath url))) := by
  have hs : stripGitSuffix (finalSegment (urlparsePath url))
      = String.mk ((stripDotGitR (lastSegR (urlparsePath url).data.reverse)).reverse) := by
    rw [stripGitSuffix, finalSegment, data_mk, List.reverse_reverse, lastSegR]
  rw [hs] at h ⊢
  have hne : stripDotGitR (lastSegR (urlparsePath url).data.reverse) ≠ [] := by
    intro h0
    apply h
    rw [h0]
    rfl
  have hseg : lastSegR (urlparsePath url).data.reverse ≠ [] :=
    fun h0 => hne (by rw [h0]; exact stripDotGitR_nil)
  simp only [GitHubImporter.extract_repo_name]
  rw [rstripSlashR_of_lastSegR_ne _ hseg, lastSegR_stripDotGitR, if_neg hne]

theorem C2_derived_repo_name_witness :
    stripGitSuffix (finalSegment (urlparsePath "https://example.com/group/proj.git")) ≠ "" ∧
    GitHubImporter.extract_repo_name "https://example.com/group/proj.git" =
      Except.ok "proj" := by
  refine ⟨by decide, ?_⟩
  rw [C2_derived_repo_name "https://example.com/group/proj.git" (by decide)]
  rfl

/-- C10 fails as stated: the path of `https://example.com/.git/` ends in a
slash and its last non-empty segment is `.git`, yet name derivation raises
`ValueError` instead of producing a name. -/
theorem C10_counterexample :
    (urlparsePath "https://example.com/.git/").data.reverse.head? = some '/' ∧
    GitHubImporter.extract_repo_name "https://example.com/.git/" ≠
      Except.ok (stripGitSuffix (lastNonemptySegment (urlparsePath "https://example.com/.git/"))) := by
  constructor
  · decide
  · intro hcontra
    rw [show GitHubImporter.extract_repo_name "https://example.com/.git/" =
        Except.error "Could not extract repository name from URL" from rfl] at hcontra
    exact Except.noConfusion hcontra

/-- C10 (amended): derivation strips all trailing `/` characters from the
URL path before removing `.git` and taking the final component, so for every
URL whose path ends in a slash and whose last non-empty segment still has a
non-empty remainder after removing a trailing `.git`, the derived name is
that remainder (e.g. path `/group/proj.git/` derives `proj`). -/
theorem C10_trailing_slash_stripped (url : String)
    (_h1 : (urlparsePath url).data.reverse.head? = some '/')
    (h2 : stripGitSuffix (lastNonemptySegment (urlparsePath url)) ≠ "") :
    GitHubImporter.extract_repo_name url =
      Except.ok (stripGitSuffix (lastNonemptySegment (urlparsePath url))) := by
  have hs : stripGitSuffix (lastNonemptySegment (urlparsePath url))
      = String.mk ((stripDotGitR (lastSegR (rstripSlashR (urlparsePath url).data.reverse))).reverse) := by
    rw [stripGitSuffix, lastNonemptySegment, data_mk, List.reverse_reverse, lastSegR, rstripSlashR]
  rw [hs] at h2 ⊢
  have hne : stripDotGitR (lastSegR (rstripSlashR (urlparsePath url).data.reverse)) ≠ [] := by
    intro h0
    apply h2
    rw [h0]
    rfl
  simp only [GitHubImporter.extract_repo_name]
  rw [lastSegR_stripDotGitR, if_neg hne]

theorem C10_trailing_slash_stripped_witness :
    (urlparsePath "https://example.com/group/proj.git/").data.reverse.head? = some '/' ∧
    stripGitSuffix (lastNonemptySegment (urlparsePath "https://example.com/group/proj.git/")) ≠ "" ∧
    GitHubImporter.extract_repo_name "https://example.com/group/proj.git/" =
      Except.ok "proj" := by
  refine ⟨by decide, by decide, ?_⟩
  rw [C10_trailing_slash_stripped "https://example.com/group/proj.git/" (by decide) (by decide)]
  rfl

/-- C3: for every source URL with an empty path and no override name,
construction of the job fails with `ValueError` and the whole run makes no
external call at all (empty event trace, untouched filesystem) and exits 1. -/
theorem C3_empty_path_fails_early (env : Env) (token user url : String)
    (cb : Option String) (pid : Nat) (fs0 : List String)
    (h : urlparsePath url = "") :
    GitHubImporter.init token user url cb none =
      Except.error "Could not extract repository name from URL" ∧
    runImport env token user url cb none pid fs0 = ⟨1, [], fs0⟩ := by
  have hinit : GitHubImporter.init token user url cb none =
      Except.error "Could not extract repository name from URL" := by
    rw [GitHubImporter.init]
    simp only [GitHubImporter.extract_repo_name, h]
    rfl
  exact ⟨hinit, by rw [runImport, hinit]⟩

theorem C3_empty_path_fails_early_witness :
    urlparsePath "https://example.com" = "" ∧
    GitHubImporter.init "t" "u" "https://example.com" none none =
      Except.error "Could not extract repository name from URL" ∧
    runImport ⟨true, true, "200", "404", "", some none, some true, "", true, false, true, none⟩
      "t" "u" "https://example.com" none none 7 [] = ⟨1, [], []⟩ := by
  refine ⟨by decide, ?_⟩
  have h := C3_empty_path_fails_early
    ⟨true, true, "200", "404", "", some none, some true, "", true, false, true, none⟩
    "t" "u" "https://example.com" none 7 [] (by decide)
  exact h

example : urlparsePath "https://example.com/group/proj.git" = "/group/proj.git" := by decide

example : GitHubImporter.extract_repo_name "https://example.com/group/proj.git" =
    Except.ok "proj" := rfl

example : GitHubImporter.extract_repo_name "https://example.com/x/.git" =
    Except.error "Could not extract repository name from URL" := rfl

example : GitHubImporter.extract_repo_name "https://example.com/group/proj.git/" =
    Except.ok "proj" := rfl

example : GitHubImporter.extract_repo_name "https://example.com" =
    Except.error "Could not extract repository name from URL" := rfl

example : pyAnswer "  No " = "no" := by decide

example : (GitHubImporter.import_repo envEx impEx 7 []).exitCode = 0 := by decide

example : GitHubImporter.import_repo envEx impEx 7 [] =
    ⟨0,
     [Event.which "git", Event.which "curl", Event.httpGet userApiUrl,
      Event.httpGet (repoApiUrl impEx), Event.httpGet (usersUrl impEx),
      Event.httpPost userReposUrl (createBody impEx),
      Event.gitClone impEx.source_url (stagingPath impEx 7),
      Event.gitPush (githubPushUrl impEx), Event.rmrf (stagingPath impEx 7)],
     []⟩ := by decide

/-! ## Helper lemmas about the run state -/

theorem nonCloneStep_trans {s1 s2 s3 : St} (h1 : NonCloneStep s1 s2)
    (h2 : NonCloneStep s2 s3) : NonCloneStep s1 s3 := by
  obtain ⟨ha1, hb1, e1, hc1, hd1⟩ := h1
  obtain ⟨ha2, hb2, e2, hc2, hd2⟩ := h2
  refine ⟨ha2.trans ha1, hb2.trans hb1, e1 ++ e2, ?_, ?_⟩
  · rw [hc2, hc1, List.append_assoc]
  · rw [List.all_append, hd1, hd2]
    rfl

theorem nonClone_deps (env : Env) (st : St) :
    NonCloneStep st (check_dependencies env st).st := by
  simp only [check_dependencies]
  split
  · exact ⟨rfl, rfl, [Event.which "git"], rfl, rfl⟩
  · split
    · exact ⟨rfl, rfl, [Event.which "git", Event.which "curl"], rfl, rfl⟩
    · exact ⟨rfl, rfl, [Event.which "git", Event.which "curl"], rfl, rfl⟩

theorem nonClone_token (env : Env) (st : St) :
    NonCloneStep st (validate_token env st).st := by
  simp only [validate_token]
  split
  · exact ⟨rfl, rfl, [Event.httpGet userApiUrl], rfl, rfl⟩
  · split
    · exact ⟨rfl, rfl, [Event.httpGet userApiUrl], rfl, rfl⟩
    · exact ⟨rfl, rfl, [Event.httpGet userApiUrl], rfl, rfl⟩

theorem nonClone_probe (env : Env) (imp : GitHubImporter) (st : St) :
    NonCloneStep st (check_repo_exists env imp st).st := by
  simp only [check_repo_exists]
  split
  · exact ⟨rfl, rfl, [Event.httpGet (repoApiUrl imp)], rfl, rfl⟩
  · split
    · split
      · exact ⟨rfl, rfl, [Event.httpGet (repoApiUrl imp), Event.prompt],
          by simp [St.addEvents, StepOut.st], rfl⟩
      · exact ⟨rfl, rfl, [Event.httpGet (repoApiUrl imp), Event.prompt],
          by simp [St.addEvents, StepOut.st], rfl⟩
    · exact ⟨rfl, rfl, [Event.httpGet (repoApiUrl imp)], rfl, rfl⟩

theorem nonClone_create (env : Env) (imp : GitHubImporter) (st : St) :
    NonCloneStep st (create_github_repo env imp st).st := by
  simp only [create_github_repo]
  split
  · exact ⟨rfl, rfl, [Event.httpGet (usersUrl imp)], rfl, rfl⟩
  · split
    · exact ⟨rfl, rfl,
        [Event.httpGet (usersUrl imp), Event.httpPost (createEndpoint env imp) (createBody imp)],
        by simp [St.addEvents, StepOut.st], rfl⟩
    · exact ⟨rfl, rfl,
        [Event.httpGet (usersUrl imp), Event.httpPost (createEndpoint env imp) (createBody imp),
         Event.printRaw env.createRaw], by simp [St.addEvents, StepOut.st], rfl⟩
    · exact ⟨rfl, rfl,
        [Event.httpGet (usersUrl imp), Event.httpPost (createEndpoint env imp) (createBody imp),
         Event.printRaw env.createRaw], by simp [St.addEvents, StepOut.st], rfl⟩

theorem nonClone_push (env : Env) (imp : GitHubImporter) (st : St) :
    NonCloneStep st (push_to_github env imp st).st := by
  simp only [push_to_github]
  split
  · exact ⟨rfl, rfl, [Event.gitPush (githubPushUrl imp)], rfl, rfl⟩
  · split
    · split
      · rename_i b heqb
        split
        · exact ⟨rfl, rfl, [Event.gitPush (githubPushUrl imp),
            Event.httpPatch (repoApiUrl imp) b], by simp [St.addEvents, StepOut.st], rfl⟩
        · exact ⟨rfl, rfl, [Event.gitPush (githubPushUrl imp),
            Event.httpPatch (repoApiUrl imp) b], by simp [St.addEvents, StepOut.st], rfl⟩
      · exact ⟨rfl, rfl, [Event.gitPush (githubPushUrl imp)], rfl, rfl⟩
    · exact ⟨rfl, rfl, [Event.gitPush (githubPushUrl imp)], rfl, rfl⟩

theorem clone_source_repo_tempDir (env : Env) (imp : GitHubImporter) (pid : Nat) (st : St) :
    (clone_source_repo env imp pid st).st.tempDir = some (stagingPath imp pid) := by
  simp only [clone_source_repo]
  repeat' split
  all_goals rfl

theorem clone_source_repo_mem_clone (env : Env) (imp : GitHubImporter) (pid : Nat) (st : St) :
    Event.gitClone imp.source_url (stagingPath imp pid) ∈
      (clone_source_repo env imp pid st).st.events := by
  simp only [clone_source_repo]
  repeat' split
  all_goals simp [St.addEvents, StepOut.st]

theorem cleanup_of_tempDir_none (st : St) (h : st.tempDir = none) : cleanup st = st := by
  unfold cleanup
  rw [h]

theorem cleanup_eq_of_some (st : St) (d : String) (h : st.tempDir = some d) :
    cleanup st =
      if d ∈ st.fs then
        { st with fs := st.fs.filter (fun s => s != d), events := st.events ++ [Event.rmrf d] }
      else st := by
  unfold cleanup
  rw [h]

theorem cleanup_not_mem (st : St) (d : String) (h : st.tempDir = some d) :
    d ∉ (cleanup st).fs := by
  rw [cleanup_eq_of_some st d h]
  split
  · simp
  · next h2 => exact h2

theorem cleanup_events_grow (st : St) : ∃ evs, (cleanup st).events = st.events ++ evs := by
  unfold cleanup
  split
  · split
    · exact ⟨[Event.rmrf _], rfl⟩
    · exact ⟨[], by simp⟩
  · exact ⟨[], by simp⟩

theorem finishRun_fs (k : ExitKind) (st : St) : (finishRun k st).fs = (cleanup st).fs := by
  cases k <;> rfl

theorem finishRun_events (k : ExitKind) (st : St) :
    (finishRun k st).events = (cleanup st).events := by
  cases k <;> rfl

/-- Case analysis for `andThen`: a property holds of the sequenced run if it
holds of every direct finish from the first step's state and of the
continuation applied to a successful first step. -/
theorem andThen_elim {α : Type} (r : StepOut α) (k : α → St → RunResult)
    (P : RunResult → Prop)
    (hstop : ∀ x : ExitKind, P (finishRun x r.st))
    (hok : ∀ a st, r = StepOut.ok a st → P (k a st)) :
    P (r.andThen k) := by
  cases r with
  | ok a st => exact hok a st rfl
  | exit c st => exact hstop (ExitKind.exited c)
  | interrupted st => exact hstop ExitKind.interrupted
  | excepted st => exact hstop ExitKind.excepted

/-- Any run of `import_repo` keeps the staging directory out of the final
filesystem and, when its trace shows no clone call, leaves the filesystem
untouched. -/
theorem import_repo_goodRun (env : Env) (imp : GitHubImporter) (pid : Nat)
    (fs0 : List String) (h : stagingPath imp pid ∉ fs0) :
    GoodRun imp pid fs0 (GitHubImporter.import_repo env imp pid fs0) := by
  have hA : ∀ (st : St) (k : ExitKind), st.tempDir = none → st.fs = fs0 →
      GoodRun imp pid fs0 (finishRun k st) := by
    intro st k h1 h2
    constructor
    · rw [finishRun_fs, cleanup_of_tempDir_none st h1, h2]
      exact h
    · intro _
      rw [finishRun_fs, cleanup_of_tempDir_none st h1, h2]
  have hB : ∀ (st : St) (k : ExitKind), st.tempDir = some (stagingPath imp pid) →
      Event.gitClone imp.source_url (stagingPath imp pid) ∈ st.events →
      GoodRun imp pid fs0 (finishRun k st) := by
    intro st k h1 h2
    constructor
    · rw [finishRun_fs]
      exact cleanup_not_mem st _ h1
    · intro hall
      exfalso
      rw [finishRun_events] at hall
      obtain ⟨evs, hevs⟩ := cleanup_events_grow st
      rw [hevs, List.all_append] at hall
      have h3 := (Bool.and_eq_true_iff.mp hall).1
      have h4 := List.all_eq_true.mp h3 _ h2
      simp [Event.isCloneCall] at h4
  have hchain : ∀ st : St, st.tempDir = none → st.fs = fs0 →
      GoodRun imp pid fs0 (clone_and_push env imp pid st) := by
    intro st hdir hfs
    rw [clone_and_push]
    apply andThen_elim _ _ (GoodRun imp pid fs0)
    · intro x
      exact hB _ x (clone_source_repo_tempDir env imp pid st)
        (clone_source_repo_mem_clone env imp pid st)
    · intro a st1 heq1
      have h1 : (clone_source_repo env imp pid st).st = st1 := congrArg StepOut.st heq1
      apply andThen_elim _ _ (GoodRun imp pid fs0)
      · intro x
        have hpush := nonClone_push env imp st1
        refine hB _ x ?_ ?_
        · rw [hpush.1, ← h1]
          exact clone_source_repo_tempDir env imp pid st
        · obtain ⟨evs, hevs, _⟩ := hpush.2.2
          rw [hevs]
          refine List.mem_append_left _ ?_
          rw [← h1]
          exact clone_source_repo_mem_clone env imp pid st
      · intro b st2 heq2
        have h2 : (push_to_github env imp st1).st = st2 := congrArg StepOut.st heq2
        have hpush := nonClone_push env imp st1
        refine hB _ ExitKind.finished ?_ ?_
        · rw [← h2, hpush.1, ← h1]
          exact clone_source_repo_tempDir env imp pid st
        · rw [← h2]
          obtain ⟨evs, hevs, _⟩ := hpush.2.2
          rw [hevs]
          refine List.mem_append_left _ ?_
          rw [← h1]
          exact clone_source_repo_mem_clone env imp pid st
  simp only [GitHubImporter.import_repo]
  apply andThen_elim _ _ (GoodRun imp pid fs0)
  · intro x
    exact hA _ x (nonClone_deps env ⟨fs0, [], none⟩).1 (nonClone_deps env ⟨fs0, [], none⟩).2.1
  · intro a1 st1 heq1
    have h1 : (check_dependencies env ⟨fs0, [], none⟩).st = st1 := congrArg StepOut.st heq1
    have hst1 : st1.tempDir = none ∧ st1.fs = fs0 := by
      constructor
      · rw [← h1]
        exact (nonClone_deps env ⟨fs0, [], none⟩).1
      · rw [← h1]
        exact (nonClone_deps env ⟨fs0, [], none⟩).2.1
    apply andThen_elim _ _ (GoodRun imp pid fs0)
    · intro x
      have htok := nonClone_token env st1
      exact hA _ x (htok.1.trans hst1.1) (htok.2.1.trans hst1.2)
    · intro a2 st2 heq2
      have h2 : (validate_token env st1).st = st2 := congrArg StepOut.st heq2
      have hst2 : st2.tempDir = none ∧ st2.fs = fs0 := by
        have htok := nonClone_token env st1
        constructor
        · rw [← h2]
          exact htok.1.trans hst1.1
        · rw [← h2]
          exact htok.2.1.trans hst1.2
      apply andThen_elim _ _ (GoodRun imp pid fs0)
      · intro x
        have hpr := nonClone_probe env imp st2
        exact hA _ x (hpr.1.trans hst2.1) (hpr.2.1.trans hst2.2)
      · intro repoExists st3 heq3
        have h3 : (check_repo_exists env imp st2).st = st3 := congrArg StepOut.st heq3
        have hst3 : st3.tempDir = none ∧ st3.fs = fs0 := by
          have hpr := nonClone_probe env imp st2
          constructor
          · rw [← h3]
            exact hpr.1.trans hst2.1
          · rw [← h3]
            exact hpr.2.1.trans hst2.2
        cases repoExists with
        | true => exact hchain st3 hst3.1 hst3.2
        | false =>
          apply andThen_elim _ _ (GoodRun imp pid fs0)
          · intro x
            have hcr := nonClone_create env imp st3
            exact hA _ x (hcr.1.trans hst3.1) (hcr.2.1.trans hst3.2)
          · intro created st4 heq4
            have h4 : (create_github_repo env imp st3).st = st4 := congrArg StepOut.st heq4
            have hst4 : st4.tempDir = none ∧ st4.fs = fs0 := by
              have hcr := nonClone_create env imp st3
              constructor
              · rw [← h4]
                exact hcr.1.trans hst3.1
              · rw [← h4]
                exact hcr.2.1.trans hst3.2
            cases created with
            | true => exact hchain st4 hst4.1 hst4.2
            | false => exact hA st4 (ExitKind.exited 1) hst4.1 hst4.2

/-! ## Claims C1, C4–C9: the orchestration -/

/-- C1: for every run of `import_repo` (any environment, including failures
at any stage and an interrupt mid-clone), the staging directory is absent
from the filesystem after exit; moreover, on runs whose trace shows no clone
call the filesystem is exactly the initial one — the directory was never
created. -/
theorem C1_staging_dir_absent_after_exit (env : Env) (imp : GitHubImporter) (pid : Nat)
    (fs0 : List String) (h : stagingPath imp pid ∉ fs0) :
    stagingPath imp pid ∉ (GitHubImporter.import_repo env imp pid fs0).fs ∧
    ((GitHubImporter.import_repo env imp pid fs0).events.all (fun e => !e.isCloneCall) = true →
      (GitHubImporter.import_repo env imp pid fs0).fs = fs0) :=
  import_repo_goodRun env imp pid fs0 h

theorem C1_staging_dir_absent_after_exit_witness :
    stagingPath impEx 7 ∉ ([] : List String) ∧
    (stagingPath impEx 7 ∉ (GitHubImporter.import_repo envMidClone impEx 7 []).fs ∧
      ((GitHubImporter.import_repo envMidClone impEx 7 []).events.all
          (fun e => !e.isCloneCall) = true →
        (GitHubImporter.import_repo envMidClone impEx 7 []).fs = [])) :=
  ⟨by decide, C1_staging_dir_absent_after_exit envMidClone impEx 7 [] (by decide)⟩

/-- C4: when the destination probe answers HTTP 200 and the user declines
the overwrite prompt, the run exits with code 0 and its trace contains no
repository-creation, clone, or push call. -/
theorem C4_decline_exits_zero (env : Env) (imp : GitHubImporter) (pid : Nat)
    (fs0 : List String)
    (hg : env.gitInstalled = true) (hc : env.curlInstalled = true)
    (hi : env.interruptAt = none) (ht : env.tokenStatus = "200")
    (hp : env.probeStatus = "200") (ha : pyAnswer env.overwriteAnswer ≠ "yes") :
    (GitHubImporter.import_repo env imp pid fs0).exitCode = 0 ∧
    (GitHubImporter.import_repo env imp pid fs0).events.all
      (fun e => !e.isCreateCall && !e.isCloneCall && !e.isPushCall) = true := by
  constructor <;>
    simp [GitHubImporter.import_repo, check_dependencies, validate_token, check_repo_exists,
      St.addEvents, StepOut.andThen, finishRun, cleanup, hg, hc, hi, ht, hp, ha,
      Event.isCreateCall, Event.isCloneCall, Event.isPushCall]

theorem C4_decline_exits_zero_witness :
    pyAnswer envDecline.overwriteAnswer ≠ "yes" ∧
    ((GitHubImporter.import_repo envDecline impEx 7 []).exitCode = 0 ∧
      (GitHubImporter.import_repo envDecline impEx 7 []).events.all
        (fun e => !e.isCreateCall && !e.isCloneCall && !e.isPushCall) = true) :=
  ⟨by decide, C4_decline_exits_zero envDecline impEx 7 [] rfl rfl rfl rfl rfl (by decide)⟩

/-- C5: when token validation answers any status other than 200, the run
exits with code 1 and the validation request is the last external call in
the trace (the dependency checks precede it, nothing follows it). -/
theorem C5_invalid_token_exits_one (env : Env) (imp : GitHubImporter) (pid : Nat)
    (fs0 : List String)
    (hg : env.gitInstalled = true) (hc : env.curlInstalled = true)
    (hi : env.interruptAt = none) (ht : env.tokenStatus ≠ "200") :
    (GitHubImporter.import_repo env imp pid fs0).exitCode = 1 ∧
    (GitHubImporter.import_repo env imp pid fs0).events =
      [Event.which "git", Event.which "curl", Event.httpGet userApiUrl] := by
  constructor <;>
    simp [GitHubImporter.import_repo, check_dependencies, validate_token,
      St.addEvents, StepOut.andThen, finishRun, cleanup, hg, hc, hi, ht]

theorem C5_invalid_token_exits_one_witness :
    envBadToken.tokenStatus ≠ "200" ∧
    ((GitHubImporter.import_repo envBadToken impEx 7 []).exitCode = 1 ∧
      (GitHubImporter.import_repo envBadToken impEx 7 []).events =
        [Event.which "git", Event.which "curl", Event.httpGet userApiUrl]) :=
  ⟨by decide, C5_invalid_token_exits_one envBadToken impEx 7 [] rfl rfl rfl (by decide)⟩

/-- C6: when the destination probe answers anything other than HTTP 200,
the trace contains exactly one repository-creation call, and no clone call
precedes it. -/
theorem C6_create_once_before_clone (env : Env) (imp : GitHubImporter) (pid : Nat)
    (fs0 : List String)
    (hg : env.gitInstalled = true) (hc : env.curlInstalled = true)
    (hi : env.interruptAt = none) (ht : env.tokenStatus = "200")
    (hp : env.probeStatus ≠ "200") :
    (GitHubImporter.import_repo env imp pid fs0).events.countP
      (fun e => e.isCreateCall) = 1 ∧
    ((GitHubImporter.import_repo env imp pid fs0).events.takeWhile
        (fun e => !e.isCreateCall)).all (fun e => !e.isCloneCall) = true := by
  rcases hcj : env.createJson with _ | b
  · simp [GitHubImporter.import_repo, check_dependencies, validate_token, check_repo_exists,
      create_github_repo, St.addEvents, StepOut.andThen, finishRun, cleanup,
      hg, hc, hi, ht, hp, hcj, Event.isCreateCall, Event.isCloneCall]
  · cases b
    · simp [GitHubImporter.import_repo, check_dependencies, validate_token, check_repo_exists,
        create_github_repo, St.addEvents, StepOut.andThen, finishRun, cleanup,
        hg, hc, hi, ht, hp, hcj, Event.isCreateCall, Event.isCloneCall]
    · by_cases hmem : stagingPath imp pid ∈ fs0 <;>
      cases hcl : env.cloneOk <;>
      cases hcf : env.cloneLeavesDirOnFail <;>
      cases hpo : env.pushOk <;>
      rcases heb : effBranch imp with _ | br <;>
      simp [GitHubImporter.import_repo, clone_and_push, check_dependencies, validate_token,
        check_repo_exists, create_github_repo, clone_source_repo, push_to_github,
        St.addEvents, StepOut.andThen, finishRun, cleanup,
        hg, hc, hi, ht, hp, hcj, hmem, hcl, hcf, hpo, heb,
        Event.isCreateCall, Event.isCloneCall]

theorem C6_create_once_before_clone_witness :
    envEx.probeStatus ≠ "200" ∧
    ((GitHubImporter.import_repo envEx impEx 7 []).events.countP
        (fun e => e.isCreateCall) = 1 ∧
      ((GitHubImporter.import_repo envEx impEx 7 []).events.takeWhile
          (fun e => !e.isCreateCall)).all (fun e => !e.isCloneCall) = true) :=
  ⟨by decide, C6_create_once_before_clone envEx impEx 7 [] rfl rfl rfl rfl (by decide)⟩

/-- C7: when the user-type lookup body does not decode as JSON, the run
still issues exactly one creation call, and it targets the personal-account
endpoint `https://api.github.com/user/repos`, not the organization one. -/
theorem C7_fail_open_personal_endpoint (env : Env) (imp : GitHubImporter) (pid : Nat)
    (fs0 : List String)
    (hg : env.gitInstalled = true) (hc : env.curlInstalled = true)
    (hi : env.interruptAt = none) (ht : env.tokenStatus = "200")
    (hp : env.probeStatus ≠ "200") (hu : env.userInfoJson = none) :
    Event.httpPost userReposUrl (createBody imp) ∈
      (GitHubImporter.import_repo env imp pid fs0).events ∧
    (GitHubImporter.import_repo env imp pid fs0).events.countP
      (fun e => e.isCreateCall) = 1 := by
  rcases hcj : env.createJson with _ | b
  · simp [GitHubImporter.import_repo, check_dependencies, validate_token, check_repo_exists,
      create_github_repo, createEndpoint, St.addEvents, StepOut.andThen, finishRun, cleanup,
      hg, hc, hi, ht, hp, hu, hcj, Event.isCreateCall]
  · cases b
    · simp [GitHubImporter.import_repo, check_dependencies, validate_token, check_repo_exists,
        create_github_repo, createEndpoint, St.addEvents, StepOut.andThen, finishRun, cleanup,
        hg, hc, hi, ht, hp, hu, hcj, Event.isCreateCall]
    · by_cases hmem : stagingPath imp pid ∈ fs0 <;>
      cases hcl : env.cloneOk <;>
      cases hcf : env.cloneLeavesDirOnFail <;>
      cases hpo : env.pushOk <;>
      rcases heb : effBranch imp with _ | br <;>
      simp [GitHubImporter.import_repo, clone_and_push, check_dependencies, validate_token,
        check_repo_exists, create_github_repo, createEndpoint, clone_source_repo,
        push_to_github, St.addEvents, StepOut.andThen, finishRun, cleanup,
        hg, hc, hi, ht, hp, hu, hcj, hmem, hcl, hcf, hpo, heb, Event.isCreateCall]

theorem C7_fail_open_personal_endpoint_witness :
    envNoDecodeUser.userInfoJson = none ∧
    (Event.httpPost userReposUrl (createBody impEx) ∈
        (GitHubImporter.import_repo envNoDecodeUser impEx 7 []).events ∧
      (GitHubImporter.import_repo envNoDecodeUser impEx 7 []).events.countP
        (fun e => e.isCreateCall) = 1) :=
  ⟨rfl, C7_fail_open_personal_endpoint envNoDecodeUser impEx 7 [] rfl rfl rfl rfl
    (by decide) rfl⟩

/-- C8: after a successful clone and push, no default-branch PATCH call is
issued when no (truthy) custom branch was specified, and exactly one PATCH
call is issued — after the push — when one was. -/
theorem C8_patch_iff_custom_branch (env : Env) (imp : GitHubImporter) (pid : Nat)
    (fs0 : List String)
    (hg : env.gitInstalled = true) (hc : env.curlInstalled = true)
    (hi : env.interruptAt = none) (ht : env.tokenStatus = "200")
    (hpath : (env.probeStatus = "200" ∧ pyAnswer env.overwriteAnswer = "yes") ∨
      (env.probeStatus ≠ "200" ∧ env.createJson = some true))
    (hcl : env.cloneOk = true) (hpo : env.pushOk = true) :
    (effBranch imp = none →
      (GitHubImporter.import_repo env imp pid fs0).events.countP
        (fun e => e.isPatchCall) = 0) ∧
    (∀ b, effBranch imp = some b →
      (GitHubImporter.import_repo env imp pid fs0).events.countP
        (fun e => e.isPatchCall) = 1 ∧
      ((GitHubImporter.import_repo env imp pid fs0).events.takeWhile
          (fun e => !e.isPushCall)).all (fun e => !e.isPatchCall) = true) := by
  rcases hpath with ⟨hp1, hp2⟩ | ⟨hp1, hp2⟩ <;>
  by_cases hmem : stagingPath imp pid ∈ fs0 <;>
  rcases heb : effBranch imp with _ | br <;>
  simp [GitHubImporter.import_repo, clone_and_push, check_dependencies, validate_token,
    check_repo_exists, create_github_repo, clone_source_repo, push_to_github,
    St.addEvents, StepOut.andThen, finishRun, cleanup,
    hg, hc, hi, ht, hp1, hp2, hmem, hcl, hpo, heb,
    Event.isPatchCall, Event.isPushCall]

theorem C8_patch_iff_custom_branch_witness :
    effBranch impExBranch = some "main" ∧
    ((effBranch impExBranch = none →
        (GitHubImporter.import_repo envEx impExBranch 7 []).events.countP
          (fun e => e.isPatchCall) = 0) ∧
      (∀ b, effBranch impExBranch = some b →
        (GitHubImporter.import_repo envEx impExBranch 7 []).events.countP
          (fun e => e.isPatchCall) = 1 ∧
        ((GitHubImporter.import_repo envEx impExBranch 7 []).events.takeWhile
            (fun e => !e.isPushCall)).all (fun e => !e.isPatchCall) = true)) :=
  ⟨rfl, C8_patch_iff_custom_branch envEx impExBranch 7 [] rfl rfl rfl rfl
    (Or.inr ⟨by decide, rfl⟩) rfl rfl⟩

/-- C9: a creation response that does not decode as JSON is treated exactly
like a decodable response without an `'id'` field: the whole run is the
same, the raw response is printed, the process exits 1, and no clone or
push call is issued (fail-closed, unlike the user-type lookup). -/
theorem C9_undecodable_create_fail_closed (env : Env) (imp : GitHubImporter) (pid : Nat)
    (fs0 : List String)
    (hg : env.gitInstalled = true) (hc : env.curlInstalled = true)
    (hi : env.interruptAt = none) (ht : env.tokenStatus = "200")
    (hp : env.probeStatus ≠ "200") (hcj : env.createJson = none) :
    GitHubImporter.import_repo env imp pid fs0 =
      GitHubImporter.import_repo { env with createJson := some false } imp pid fs0 ∧
    (GitHubImporter.import_repo env imp pid fs0).exitCode = 1 ∧
    Event.printRaw env.createRaw ∈ (GitHubImporter.import_repo env imp pid fs0).events ∧
    (GitHubImporter.import_repo env imp pid fs0).events.all
      (fun e => !e.isCloneCall && !e.isPushCall) = true := by
  refine ⟨?_, ?_, ?_, ?_⟩ <;>
    simp [GitHubImporter.import_repo, check_dependencies, validate_token, check_repo_exists,
      create_github_repo, createEndpoint, St.addEvents, StepOut.andThen, finishRun, cleanup,
      hg, hc, hi, ht, hp, hcj, Event.isCloneCall, Event.isPushCall]

theorem C9_undecodable_create_fail_closed_witness :
    envNoDecodeCreate.createJson = none ∧
    (GitHubImporter.import_repo envNoDecodeCreate impEx 7 [] =
        GitHubImporter.import_repo { envNoDecodeCreate with createJson := some false }
          impEx 7 [] ∧
      (GitHubImporter.import_repo envNoDecodeCreate impEx 7 []).exitCode = 1 ∧
      Event.printRaw envNoDecodeCreate.createRaw ∈
        (GitHubImporter.import_repo envNoDecodeCreate impEx 7 []).events ∧
      (GitHubImporter.import_repo envNoDecodeCreate impEx 7 []).events.all
        (fun e => !e.isCloneCall && !e.isPushCall) = true) :=
  ⟨rfl, C9_undecodable_create_fail_closed envNoDecodeCreate impEx 7 [] rfl rfl rfl rfl
    (by decide) rfl⟩
